import Mathlib

/-!
Verification of the file-based CRUD provider in
`examples/file-python/src/file_provider.py`.

The provider is a single-shot command-line process: it reads one JSON
request from standard input, dispatches on an `action` selector to one of
four handlers (`handle_create`, `handle_read`, `handle_update`,
`handle_delete`), performs at most one filesystem operation, and either
prints one JSON response (exit code 0) or terminates with a non-zero exit
code.

Shallow embedding choices:
  - The filesystem is an association list from paths to textual contents
    (`FS`); a file exists at a path iff `lookup` returns `some`.
  - The JSON request body is `Request`: an optional `id` string and an
    optional `input` object with an optional `content` string, mirroring
    the permissive accesses `data.get("id")` and
    `data.get("input", {}).get("content", "")`.
  - Each handler is a pure function `FS → Request → Result × FS`.
    `Result.success out` is exit code 0 with `out` as the (optional)
    JSON document printed to standard output; `Result.exitCode n` is
    `sys.exit(n)` with nothing printed; `Result.pyError` is an unhandled
    Python exception (e.g. `Path(None)` raising `TypeError`), a non-zero
    exit with nothing printed.
  - `tempfile.NamedTemporaryFile` allocates a fresh unique path and
    atomically creates the file; the handler receives the allocated path
    as the argument `tmpPath`, and theorems that depend on uniqueness
    assume the allocated path is fresh in the filesystem at the moment of
    allocation, which is exactly the facility's create-exclusive
    guarantee. The allocated name is an absolute path already in normal
    form, so `str()` of it is the identity.
  - The source turns the request id into a `Path` and prints `str(path)`
    in the response: pathlib normalizes the string purely syntactically at
    construction (duplicate separators and `.` components collapse,
    trailing separators drop), modelled by `pathStr`. The association list
    is keyed by the id string as presented in the request; since the
    normalization is deterministic and each claim involves a single id per
    run, a filesystem keyed by normalized paths is the image of this one
    under `pathStr` on keys, and `pathStr` is applied where the source
    stringifies the path into the printed response.
  - `Path.read_text` opens the file in text mode with `newline=None`,
    so universal newline translation applies on the way back: `CR LF` and
    lone `CR` in the stored content come back as `LF`, modelled by
    `nlTranslate`. `Path.write_text` on a POSIX host stores the content
    verbatim.
-/

/-- The filesystem: a finite map from paths to file contents, as an
association list. Later entries are shadowed by earlier ones. -/
def FS : Type := List (String × String)

/-- A file exists at path `k` iff this returns `some` of its content. -/
def FS.lookup (fs : FS) (k : String) : Option String :=
  (List.find? (fun e => e.1 == k) fs).map (·.2)

/-- Writing content `v` at path `k` (`Path.write_text`): the new entry
shadows any previous one. -/
def FS.insert (fs : FS) (k : String) (v : String) : FS :=
  (k, v) :: fs

/-- Removing path `k` (`Path.unlink(missing_ok=True)`): drop every entry
at `k`; a no-op when no file is there. -/
def FS.erase (fs : FS) (k : String) : FS :=
  List.filter (fun e => e.1 != k) fs

/-- The optional `input` object of the JSON request body. -/
structure ReqInput where
  content : Option String
deriving DecidableEq, Repr

/-- The JSON request body: `{"id": ..., "input": {"content": ...}}`,
each field optional. -/
structure Request where
  id : Option String
  input : Option ReqInput
deriving DecidableEq, Repr

/-- `data.get("input", {}).get("content", "")`: the content to write,
defaulting to the empty string when `input` or `input.content` is
missing. -/
def Request.contentOrEmpty (data : Request) : String :=
  match data.input with
  | none => ""
  | some i => i.content.getD ""

/-- The JSON document printed on success:
`{"id": <path>, "content": <content>}`. -/
structure Response where
  id : String
  content : String
deriving DecidableEq, Repr

/-- Outcome of one handler invocation. `success out` is exit code 0 with
`out` printed to standard output (`none` when nothing is printed, as for
delete); `exitCode n` is `sys.exit(n)` with nothing printed; `pyError` is
an unhandled Python exception, a non-zero exit with nothing printed. -/
inductive Result where
  | success (out : Option Response)
  | exitCode (n : Nat)
  | pyError
deriving DecidableEq, Repr

/-- Universal newline translation performed by text-mode reads
(`Path.read_text` opens with `newline=None`): each `CR LF` pair and each
lone `CR` in the stored bytes comes back as a single `LF`. -/
def nlTranslateList : List Char → List Char
  | [] => []
  | [c] => [if c = '\r' then '\n' else c]
  | c :: d :: rest =>
    if c = '\r' then
      if d = '\n' then '\n' :: nlTranslateList rest
      else '\n' :: nlTranslateList (d :: rest)
    else c :: nlTranslateList (d :: rest)

/-- Universal newline translation on strings, as applied by
`Path.read_text` to the stored content. Writes (`Path.write_text` on a
POSIX host, where `os.linesep` is `LF`) store the content verbatim; only
the read direction translates. -/
def nlTranslate (s : String) : String :=
  ⟨nlTranslateList s.data⟩

/-- Splitting a path on the separator character, keeping empty pieces. -/
def splitSlashAux : List Char → List Char → List (List Char)
  | [], acc => [acc.reverse]
  | c :: rest, acc =>
    if c = '/' then acc.reverse :: splitSlashAux rest []
    else splitSlashAux rest (c :: acc)

/-- The non-root components `PurePosixPath` keeps: splitting on the
separator and dropping empty components and bare `.` components (while
keeping `..`, which pathlib does not resolve). -/
def pathComponents (s : String) : List String :=
  ((splitSlashAux s.data []).filter
      (fun c => !(c == ([] : List Char)) && !(c == ['.']))).map
    (fun l => (⟨l⟩ : String))

/-- The root prefix `PurePosixPath` keeps: exactly two leading separators
stay a double root, one or three-or-more collapse to a single root. -/
def posixRoot : List Char → String
  | '/' :: '/' :: '/' :: _ => "/"
  | '/' :: '/' :: _ => "//"
  | '/' :: _ => "/"
  | _ => ""

/-- `str(Path(s))`: pathlib's purely syntactic normalization, performed
when the id string is turned into a `Path` and printed back. Duplicate
separators and `.` components collapse, trailing separators drop, and the
empty path prints as `.`. -/
def pathStr (s : String) : String :=
  let root := posixRoot s.data
  let body := String.intercalate "/" (pathComponents s)
  if root = "" ∧ body = "" then "." else root ++ body

/-- `handle_create`: allocate a fresh temporary path (`tmpPath`, handed
out by `tempfile.NamedTemporaryFile`), write
`data.get("input", {}).get("content", "")` to it, and print
`{"id": tmpPath, "content": content}`. -/
def handle_create (tmpPath : String) (fs : FS) (data : Request) :
    Result × FS :=
  let content := data.contentOrEmpty
  (Result.success (some ⟨tmpPath, content⟩), fs.insert tmpPath content)

/-- `handle_read`: `Path(data.get("id"))` raises on a missing `id`;
otherwise `sys.exit(22)` when no file exists at the path, else print
`{"id": str(path), "content": path.read_text()}` — the printed id is the
pathlib-normalized `pathStr` of the request id, and `read_text` applies
universal newline translation to the stored content. The filesystem is
keyed by the id string as presented and never changed by read. -/
def handle_read (fs : FS) (data : Request) : Result × FS :=
  match data.id with
  | none => (Result.pyError, fs)
  | some p =>
    match fs.lookup p with
    | none => (Result.exitCode 22, fs)
    | some c => (Result.success (some ⟨pathStr p, nlTranslate c⟩), fs)

/-- `handle_update`: `Path(data.get("id"))` raises on a missing `id`;
otherwise `path.write_text(content)` truncates and writes the file
(creating it when absent, storing the content verbatim), and
`{"id": str(path), "content": content}` is printed — the printed id is the
pathlib-normalized `pathStr` of the request id, while the printed content
is the `content` variable itself, not a read-back. -/
def handle_update (fs : FS) (data : Request) : Result × FS :=
  match data.id with
  | none => (Result.pyError, fs)
  | some p =>
    let content := data.contentOrEmpty
    (Result.success (some ⟨pathStr p, content⟩), fs.insert p content)

/-- `handle_delete`: `Path(data.get("id"))` raises on a missing `id`;
otherwise `path.unlink(missing_ok=True)` removes the file if present and
succeeds either way, printing nothing. -/
def handle_delete (fs : FS) (data : Request) : Result × FS :=
  match data.id with
  | none => (Result.pyError, fs)
  | some p => (Result.success none, fs.erase p)

/-- A run of successive create invocations: each list entry pairs the path
handed out by `tempfile.NamedTemporaryFile` with the content that create
writes there. `FreshChain fs l` holds when each allocated path is absent
from the filesystem at the moment of its allocation — the atomic
create-exclusive guarantee of the temporary-file facility, which holds in
any serialization of sequential or concurrent create invocations because
`NamedTemporaryFile` creates the file exclusively at allocation time. -/
inductive FreshChain : FS → List (String × String) → Prop
  | nil (fs : FS) : FreshChain fs []
  | cons (fs : FS) (t c : String) (rest : List (String × String)) :
      fs.lookup t = none →
      FreshChain (handle_create t fs ⟨none, some ⟨some c⟩⟩).2 rest →
      FreshChain fs ((t, c) :: rest)

/-! ### Basic filesystem lemmas -/

theorem FS.lookup_insert_self (fs : FS) (k v : String) :
    (fs.insert k v).lookup k = some v := by
  simp [FS.lookup, FS.insert, List.find?]

theorem FS.lookup_erase_self (fs : FS) (k : String) :
    (fs.erase k).lookup k = none := by
  have h : List.find? (fun e => e.1 == k)
      (List.filter (fun e => e.1 != k) fs) = none := by
    rw [List.find?_eq_none]
    intro x hx
    have hne := (List.mem_filter.mp hx).2
    simpa [bne] using hne
  simp [FS.lookup, FS.erase, h]

theorem FS.lookup_insert_isSome (fs : FS) (k v t : String)
    (h : (fs.lookup t).isSome) : ((fs.insert k v).lookup t).isSome := by
  by_cases hk : k = t
  · subst hk
    simp [FS.lookup_insert_self]
  · have hb : (k == t) = false := by simpa using hk
    simpa [FS.lookup, FS.insert, List.find?, hb] using h

theorem nlTranslateList_eq_self : ∀ l : List Char, '\r' ∉ l →
    nlTranslateList l = l
  | [], _ => rfl
  | [c], h => by
    have hc : ¬ c = '\r' := fun hce => h (List.mem_singleton.mpr hce.symm)
    simp [nlTranslateList, hc]
  | c :: d :: rest, h => by
    have hc : ¬ c = '\r' := fun hce => h (List.mem_cons.mpr (Or.inl hce.symm))
    have hrest : '\r' ∉ d :: rest := fun hm => h (List.mem_cons_of_mem c hm)
    simp only [nlTranslateList, if_neg hc]
    exact congrArg (c :: ·) (nlTranslateList_eq_self (d :: rest) hrest)

theorem nlTranslate_eq_self (s : String) (h : '\r' ∉ s.data) :
    nlTranslate s = s := by
  simp [nlTranslate, nlTranslateList_eq_self s.data h]

theorem handle_create_fs (fs : FS) (t c : String) :
    (handle_create t fs ⟨none, some ⟨some c⟩⟩).2 = fs.insert t c := by
  simp [handle_create, Request.contentOrEmpty]

theorem freshChain_not_mem_of_isSome (fs : FS) (l : List (String × String))
    (h : FreshChain fs l) (t : String) (ht : (fs.lookup t).isSome) :
    t ∉ l.map Prod.fst := by
  induction h with
  | nil => simp
  | cons fs t0 c rest h0 _ ih =>
    simp only [List.map_cons, List.mem_cons, not_or]
    constructor
    · intro he
      rw [he, h0] at ht
      simp at ht
    · apply ih
      rw [handle_create_fs]
      exact FS.lookup_insert_isSome fs t0 c t ht

/-! ### Claim theorems -/

/-- Claim C1: a read invocation whose request `id` names a path at which no
resource exists terminates via `sys.exit(22)` — exit code 22, nothing
written to standard output — and leaves the filesystem untouched. -/
theorem read_missing_exits_22 (fs : FS) (p : String) (inp : Option ReqInput)
    (h : fs.lookup p = none) :
    handle_read fs ⟨some p, inp⟩ = (Result.exitCode 22, fs) := by
  simp [handle_read, h]

theorem read_missing_exits_22_witness :
    handle_read ([("a", "x")] : FS) ⟨some "b", none⟩ =
      (Result.exitCode 22, ([("a", "x")] : FS)) :=
  read_missing_exits_22 [("a", "x")] "b" none (by decide)

/-- Claim C2, counterexample: the round-trip fails for content holding a
carriage return. Create with content `x CR y` stores it verbatim, but the
subsequent read of the returned id prints `x LF y` — `Path.read_text`'s
universal newline translation — which differs from the created content. -/
theorem create_read_roundtrip_cr_counterexample :
    (handle_read
        (handle_create "/t/f" ([] : FS) ⟨none, some ⟨some "x\ry"⟩⟩).2
        ⟨some "/t/f", none⟩).1 =
      Result.success (some ⟨"/t/f", "x\ny"⟩) ∧
    ("x\ny" : String) ≠ "x\ry" :=
  ⟨by decide, by decide⟩

/-- Claim C2 (amended): for every content string `c` containing no
carriage return, a create invocation with body `{input:{content:c}}`
succeeds printing a response whose `content` equals `c`, and a subsequent
read invocation with the returned `id` succeeds printing `content` equal
to `c` (create/read round-trip; `Path.read_text`'s universal newline
translation is the identity on CR-free content). -/
theorem create_read_roundtrip_nocr (fs : FS) (tmp c : String)
    (hc : '\r' ∉ c.data) :
    (handle_create tmp fs ⟨none, some ⟨some c⟩⟩).1 =
        Result.success (some ⟨tmp, c⟩) ∧
    handle_read (handle_create tmp fs ⟨none, some ⟨some c⟩⟩).2
        ⟨some tmp, none⟩ =
      (Result.success (some ⟨pathStr tmp, c⟩),
        (handle_create tmp fs ⟨none, some ⟨some c⟩⟩).2) := by
  refine ⟨by simp [handle_create, Request.contentOrEmpty], ?_⟩
  rw [handle_create_fs]
  simp [handle_read, FS.lookup_insert_self, nlTranslate_eq_self c hc]

theorem create_read_roundtrip_nocr_witness :
    (handle_create "/t/f" ([] : FS) ⟨none, some ⟨some "hi"⟩⟩).1 =
        Result.success (some ⟨"/t/f", "hi"⟩) ∧
    handle_read (handle_create "/t/f" ([] : FS) ⟨none, some ⟨some "hi"⟩⟩).2
        ⟨some "/t/f", none⟩ =
      (Result.success (some ⟨pathStr "/t/f", "hi"⟩),
        (handle_create "/t/f" ([] : FS) ⟨none, some ⟨some "hi"⟩⟩).2) :=
  create_read_roundtrip_nocr [] "/t/f" "hi" (by decide)

/-- Claim C3: for content strings `c1, c2` and an existing resource at path
`p` holding `c1`, an update invocation with `{id:p, input:{content:c2}}`
succeeds with response `content = c2`, and afterwards the resource at `p`
holds exactly `c2` — the old content is fully replaced, not appended to
(the printed id is `str(path)`, the normalized request id). -/
theorem update_overwrites (fs : FS) (p c1 c2 : String)
    (h : fs.lookup p = some c1) :
    (handle_update fs ⟨some p, some ⟨some c2⟩⟩).1 =
        Result.success (some ⟨pathStr p, c2⟩) ∧
    (handle_update fs ⟨some p, some ⟨some c2⟩⟩).2.lookup p = some c2 := by
  constructor
  · simp [handle_update, Request.contentOrEmpty]
  · simp [handle_update, Request.contentOrEmpty, FS.lookup_insert_self]

theorem update_overwrites_witness :
    (handle_update ([("p", "old")] : FS) ⟨some "p", some ⟨some "new"⟩⟩).1 =
        Result.success (some ⟨pathStr "p", "new"⟩) ∧
    (handle_update ([("p", "old")] : FS)
        ⟨some "p", some ⟨some "new"⟩⟩).2.lookup "p" = some "new" :=
  update_overwrites [("p", "old")] "p" "old" "new" (by decide)

/-- Claim C4: a delete invocation whose request carries an `id` — whether or
not a resource exists at that path — succeeds (exit code 0) and prints no
output body (idempotent delete). -/
theorem delete_always_succeeds_no_output (fs : FS) (p : String)
    (inp : Option ReqInput) :
    (handle_delete fs ⟨some p, inp⟩).1 = Result.success none := by
  simp [handle_delete]

/-- Claim C5: after a create invocation returning `id = tmp` and a delete
invocation with that `id`, a subsequent read invocation with the same `id`
terminates with exit code 22 — delete actually removes the resource. -/
theorem create_delete_read_not_found (fs : FS) (tmp c : String) :
    (handle_read
        (handle_delete (handle_create tmp fs ⟨none, some ⟨some c⟩⟩).2
          ⟨some tmp, none⟩).2
        ⟨some tmp, none⟩).1 = Result.exitCode 22 := by
  rw [handle_create_fs]
  simp [handle_delete, handle_read, FS.lookup_erase_self]

/-- Claim C6: N create invocations — sequential, or concurrent and hence
serialized through the atomic create-exclusive allocation of the
temporary-file facility (captured by the `FreshChain` hypothesis: each
allocated path is absent from the filesystem at its allocation instant) —
produce N pairwise distinct `id` values; in particular two simultaneous
create calls are never assigned the same path. -/
theorem create_ids_distinct (fs : FS) (l : List (String × String))
    (h : FreshChain fs l) : (l.map Prod.fst).Nodup := by
  induction h with
  | nil => simp
  | cons fs t c rest h0 hrest ih =>
    simp only [List.map_cons, List.nodup_cons]
    refine ⟨?_, ih⟩
    apply freshChain_not_mem_of_isSome _ _ hrest
    rw [handle_create_fs]
    simp [FS.lookup_insert_self]

theorem create_ids_distinct_witness :
    (([("a", "x"), ("b", "y"), ("c", "z")].map Prod.fst :
        List String)).Nodup :=
  create_ids_distinct [] [("a", "x"), ("b", "y"), ("c", "z")]
    (FreshChain.cons _ _ _ _ (by decide)
      (FreshChain.cons _ _ _ _ (by decide)
        (FreshChain.cons _ _ _ _ (by decide) (FreshChain.nil _))))

/-- Claim C7, counterexample: a successful update with request id `x/.`
prints response id `x` — `str(Path("x/."))` collapses the `.` component —
which is not the same string as the request's id, so the id is not always
echoed back unchanged. -/
theorem read_update_echo_id_counterexample :
    (handle_update ([] : FS) ⟨some "x/.", some ⟨some "v"⟩⟩).1 =
      Result.success (some ⟨"x", "v"⟩) ∧
    ("x" : String) ≠ "x/." :=
  ⟨by decide, by decide⟩

/-- Claim C7 (amended): whenever a read or an update invocation succeeds
and prints a response, the `id` field of that response is `str(Path(id))` —
the request's `id` after pathlib's purely syntactic normalization
(duplicate separators and `.` components collapse, trailing separators
drop); it is the very request id whenever that id is already in normal
form. -/
theorem read_update_echo_normalized_id (fs : FS) (data : Request)
    (out : Response) :
    ((handle_read fs data).1 = Result.success (some out) →
      data.id.map pathStr = some out.id) ∧
    ((handle_update fs data).1 = Result.success (some out) →
      data.id.map pathStr = some out.id) := by
  obtain ⟨id?, inp⟩ := data
  cases id? with
  | none => simp [handle_read, handle_update]
  | some p =>
    constructor
    · intro h
      cases hl : FS.lookup fs p with
      | none => simp [handle_read, hl] at h
      | some c =>
        simp only [handle_read, hl] at h
        cases h
        rfl
    · intro h
      simp only [handle_update] at h
      cases h
      rfl

theorem read_update_echo_normalized_id_witness :
    (Request.mk (some "x/.") (some ⟨some "v"⟩)).id.map pathStr =
      some (Response.mk "x" "v").id :=
  (read_update_echo_normalized_id [] ⟨some "x/.", some ⟨some "v"⟩⟩
    ⟨"x", "v"⟩).2 (by decide)

/-- Claim C8: a create invocation whose body lacks the `input.content`
field — or the whole `input` object — writes the empty string to the new
resource and prints a response whose `content` field is the empty
string. -/
theorem create_missing_content_empty (fs : FS) (tmp : String)
    (idf : Option String) :
    ((handle_create tmp fs ⟨idf, none⟩).1 =
        Result.success (some ⟨tmp, ""⟩) ∧
      (handle_create tmp fs ⟨idf, none⟩).2.lookup tmp = some "") ∧
    ((handle_create tmp fs ⟨idf, some ⟨none⟩⟩).1 =
        Result.success (some ⟨tmp, ""⟩) ∧
      (handle_create tmp fs ⟨idf, some ⟨none⟩⟩).2.lookup tmp = some "") := by
  refine ⟨⟨?_, ?_⟩, ?_, ?_⟩ <;>
    simp [handle_create, Request.contentOrEmpty, FS.lookup_insert_self]

/-- Claim C9: a read invocation performs zero filesystem mutations — the
filesystem it returns is exactly the one it was given, so every resource
(including the one at the request's `id`) has the same content after the
read as before, whether the read succeeds, exits with 22, or raises. -/
theorem read_no_fs_mutation (fs : FS) (data : Request) :
    (handle_read fs data).2 = fs ∧
    ∀ p : String, ((handle_read fs data).2).lookup p = fs.lookup p := by
  have h2 : (handle_read fs data).2 = fs := by
    obtain ⟨id?, inp⟩ := data
    cases id? with
    | none => rfl
    | some p => cases hl : FS.lookup fs p <;> simp [handle_read, hl]
  exact ⟨h2, fun p => by rw [h2]⟩

/-- Claim C10: an update invocation whose request `id` names a path at
which no resource exists still succeeds (exit code 0) and creates a
resource there holding the given content — `Path.write_text` neither fails
on nor requires prior existence. -/
theorem update_creates_missing (fs : FS) (p c : String)
    (h : fs.lookup p = none) :
    (handle_update fs ⟨some p, some ⟨some c⟩⟩).1 =
        Result.success (some ⟨pathStr p, c⟩) ∧
    (handle_update fs ⟨some p, some ⟨some c⟩⟩).2.lookup p = some c := by
  constructor
  · simp [handle_update, Request.contentOrEmpty]
  · simp [handle_update, Request.contentOrEmpty, FS.lookup_insert_self]

theorem update_creates_missing_witness :
    (handle_update ([] : FS) ⟨some "q", some ⟨some "v"⟩⟩).1 =
        Result.success (some ⟨pathStr "q", "v"⟩) ∧
    (handle_update ([] : FS) ⟨some "q", some ⟨some "v"⟩⟩).2.lookup "q" =
        some "v" :=
  update_creates_missing [] "q" "v" (by decide)
